import Mathlib

/-!
Shallow embedding of the agent decision loop of `src/agents/agent.py`
(class `Agent`, copied from Langchain v0.0.283 and merged with
`BaseSingleActionAgent`).

Python dictionaries are modelled as association lists with the Python
item-assignment semantics (replace in place when the key exists, append
otherwise); exceptions are modelled with `Except`; the LLM chain
(`llm_chain.predict`) and the output parser (`output_parser.parse`) are
external collaborators, modelled as function parameters.  `plan` and
`return_stopped_response` additionally return the trace of prompt-input
dictionaries passed to each model invocation, in order, so that claims
about the number of model calls and about the inputs of each call can be
stated.
-/

/-- A value stored in a prompt-inputs dictionary: the rendered scratchpad is a
string, the `stop` entry is a list of strings. -/
inductive Value where
  | str : String → Value
  | strList : List String → Value
deriving DecidableEq, Repr

/-- A Python dictionary with string keys, as an association list. -/
abbrev Dict := List (String × Value)

/-- Python `d[k]` lookup (first binding for `k`). -/
def dictGet : Dict → String → Option Value
  | [], _ => none
  | (k', v) :: rest, k => if k' = k then some v else dictGet rest k

/-- Python `d[k] = v`: replace the binding in place when the key exists,
append it at the end otherwise. -/
def dictSet : Dict → String → Value → Dict
  | [], k, v => [(k, v)]
  | (k', v') :: rest, k, v =>
      if k' = k then (k, v) :: rest else (k', v') :: dictSet rest k v

/-- Python `\x7b**a, **b\x7d`: start from `a` and assign every item of `b`
in iteration order (later assignments win on key collision). -/
def dictMerge (a b : Dict) : Dict :=
  b.foldl (fun d p => dictSet d p.1 p.2) a

/-- The Python whitespace set for `str.rstrip()` (`string.whitespace`). -/
def pyIsSpace (c : Char) : Bool :=
  c = ' ' || c = '\t' || c = '\n' || c = '\r' || c = '\x0b' || c = '\x0c'

/-- Python `s.rstrip()`: drop trailing whitespace characters. -/
def pyRstrip (s : String) : String :=
  ⟨(s.data.reverse.dropWhile pyIsSpace).reverse⟩

/-- `langchain.schema.AgentAction`: tool name, tool input and the verbatim
model text (`log`) that produced the action. -/
structure AgentAction where
  tool : String
  tool_input : Value
  log : String
deriving DecidableEq, Repr

/-- `langchain.schema.AgentFinish`: mapping of return values and the `log`. -/
structure AgentFinish where
  return_values : Dict
  log : String
deriving DecidableEq, Repr

/-- The decision returned by the output parser: a tool call or a finish. -/
inductive Decision where
  | action : AgentAction → Decision
  | finish : AgentFinish → Decision
deriving DecidableEq, Repr

/-- Python exceptions that the embedded code can raise or propagate. -/
inductive PyErr where
  /-- Python `UnboundLocalError`: a local variable referenced before
  assignment. -/
  | unboundLocal
  /-- `ValueError(msg)`, the concrete exception class the source raises for
  configuration errors (the spec calls these `ConfigurationError`). -/
  | valueError (msg : String)
  /-- A parse failure raised by the output parser. -/
  | parseError (msg : String)
  /-- A failure raised by the model invocation chain. -/
  | modelError (msg : String)
deriving DecidableEq, Repr

/-- The flavor-specific configuration of a concrete agent: the abstract
properties `observation_ prefix` and `llm_ prefix` of the source (renamed
here to `obsLabel` / `llmLabel`). -/
structure AgentCfg where
  obsLabel : String
  llmLabel : String
deriving DecidableEq, Repr

/-- The model invocation chain (`llm_chain.predict`): takes the index of the
call within the current operation and the full prompt inputs, returns the
completion text or raises. -/
abbrev Model := Nat → Dict → Except PyErr String

/-- The output parser (`output_parser.parse`): returns a decision or raises. -/
abbrev Parse := String → Except PyErr Decision

namespace Agent

/-- Source `Agent._stop` (lines 82-87): the stop sequences derived from the
observation label. -/
def stop_list (cfg : AgentCfg) : List String :=
  ["\n" ++ pyRstrip cfg.obsLabel, "\n\t" ++ pyRstrip cfg.obsLabel]

/-- Source `Agent._construct_scratchpad` (lines 89-97): fold the intermediate
steps into the running `thoughts` string. -/
def construct_scratchpad (cfg : AgentCfg)
    (intermediate_steps : List (AgentAction × String)) : String :=
  intermediate_steps.foldl
    (fun thoughts s =>
      thoughts ++ s.1.log ++ "\n" ++ cfg.obsLabel ++ s.2 ++ "\n" ++ cfg.llmLabel)
    ""

/-- Source `Agent.get_full_inputs` (lines 161-168): inject the scratchpad and
the stop sequences into the caller-supplied keyword arguments. -/
def get_full_inputs (cfg : AgentCfg)
    (intermediate_steps : List (AgentAction × String)) (kwargs : Dict) : Dict :=
  let thoughts := construct_scratchpad cfg intermediate_steps
  let new_inputs : Dict :=
    [("agent_scratchpad", .str thoughts), ("stop", .strList (stop_list cfg))]
  dictMerge kwargs new_inputs

/-- Reading `full_inputs["agent_scratchpad"]` as a string inside `plan`s
recovery handler.  In `plan` the key is always bound to a string by
`get_full_inputs`, so the fallback branch is unreachable there. -/
def scratchpadStr (d : Dict) : String :=
  match dictGet d "agent_scratchpad" with
  | some (.str s) => s
  | _ => ""

/-- Source `Agent.plan` (lines 99-125).  The `try` body assembles the inputs,
calls the model and parses the output; the bare `except` re-calls the model
with the scratchpad extended by the failed completion plus `"\nAction: "` and
re-parses with the prefix `"Action: "`.  When the first model call itself
raises, the handler references the local `full_output` which was never
assigned, so Python raises `UnboundLocalError` instead of retrying.  The
second component is the trace of inputs of the model calls made. -/
def plan (cfg : AgentCfg) (m : Model) (parse : Parse)
    (intermediate_steps : List (AgentAction × String)) (kwargs : Dict) :
    Except PyErr Decision × List Dict :=
  let full_inputs := get_full_inputs cfg intermediate_steps kwargs
  match m 0 full_inputs with
  | .error _e => (.error .unboundLocal, [full_inputs])
  | .ok full_output =>
      match parse full_output with
      | .ok d => (.ok d, [full_inputs])
      | .error _e =>
          let full_inputs2 := dictSet full_inputs "agent_scratchpad"
            (.str (scratchpadStr full_inputs ++ full_output ++ "\nAction: "))
          match m 1 full_inputs2 with
          | .error e2 => (.error e2, [full_inputs, full_inputs2])
          | .ok full_output2 =>
              match parse ("Action: " ++ full_output2) with
              | .ok d => (.ok d, [full_inputs, full_inputs2])
              | .error e3 => (.error e3, [full_inputs, full_inputs2])

/-- The inputs assembled by the `"generate"` branch of
`return_stopped_response` (lines 256-267): the scratchpad loop is inlined in
the source, identical to `_construct_scratchpad`, followed by the fixed
final-answer instruction. -/
def generate_inputs (cfg : AgentCfg)
    (intermediate_steps : List (AgentAction × String)) (kwargs : Dict) : Dict :=
  let thoughts := construct_scratchpad cfg intermediate_steps
    ++ "\n\nI now need to return a final answer based on the previous steps:"
  let new_inputs : Dict :=
    [("agent_scratchpad", .str thoughts), ("stop", .strList (stop_list cfg))]
  dictMerge kwargs new_inputs

/-- Source `Agent.return_stopped_response` (lines 242-282).  `"force"` returns
a constant finish without calling the model; `"generate"` does one model call
and one parse (no `try`, so parser and model failures propagate); any other
method raises `ValueError`.  The second component is the trace of inputs of
the model calls made. -/
def return_stopped_response (cfg : AgentCfg) (m : Model) (parse : Parse)
    (early_stopping_method : String)
    (intermediate_steps : List (AgentAction × String)) (kwargs : Dict) :
    Except PyErr AgentFinish × List Dict :=
  if early_stopping_method = "force" then
    (.ok ⟨[("output",
      .str "Agent stopped due to iteration limit or time limit.")], ""⟩, [])
  else if early_stopping_method = "generate" then
    let full_inputs := generate_inputs cfg intermediate_steps kwargs
    match m 0 full_inputs with
    | .error e => (.error e, [full_inputs])
    | .ok full_output =>
        match parse full_output with
        | .error e => (.error e, [full_inputs])
        | .ok (.finish f) => (.ok f, [full_inputs])
        | .ok (.action _a) =>
            (.ok ⟨[("output", .str full_output)], full_output⟩, [full_inputs])
  else
    (.error (.valueError
      ("early_stopping_method should be one of `force` or `generate`, got "
        ++ early_stopping_method)), [])

end Agent

/-- The shapes of `BasePromptTemplate` that `validate_prompt` distinguishes:
a flat `PromptTemplate` (variables and template body), a
`FewShotPromptTemplate` (variables and a suffix; the examples and the
leading block are irrelevant to validation and elided), and any other
template class. -/
inductive Prompt where
  | promptTemplate (input_variables : List String) (template : String)
  | fewShot (input_variables : List String) (suffix : String)
  | other (input_variables : List String)
deriving DecidableEq, Repr

/-- The declared variable list of a prompt template. -/
def Prompt.input_variables : Prompt → List String
  | .promptTemplate vars _ => vars
  | .fewShot vars _ => vars
  | .other vars => vars

/-- Source `Agent.validate_prompt` (lines 178-194): if `"agent_scratchpad"`
is not among the input variables, append it and extend the template body
(flat template) or the suffix (few-shot template) with
`"\n\x7bagent_scratchpad\x7d"`; any other template class raises
`ValueError`. -/
def validate_prompt (prompt : Prompt) : Except PyErr Prompt :=
  if "agent_scratchpad" ∈ prompt.input_variables then .ok prompt
  else
    match prompt with
    | .promptTemplate vars t =>
        .ok (.promptTemplate (vars ++ ["agent_scratchpad"])
          (t ++ "\n{agent_scratchpad}"))
    | .fewShot vars suf =>
        .ok (.fewShot (vars ++ ["agent_scratchpad"])
          (suf ++ "\n{agent_scratchpad}"))
    | .other _vars =>
        .error (.valueError "Got unexpected prompt type")

/-! ## Dictionary lemmas -/

theorem dictGet_dictSet (d : Dict) (k k' : String) (v : Value) :
    dictGet (dictSet d k v) k' = if k = k' then some v else dictGet d k' := by
  induction d with
  | nil => simp [dictSet, dictGet, eq_comm]
  | cons p rest ih =>
    obtain ⟨pk, pv⟩ := p
    by_cases h : pk = k
    · subst h
      simp only [dictSet, if_pos rfl, dictGet]
      by_cases h' : pk = k'
      · subst h'; simp
      · simp [h', fun h'' : pk = k' => h' h'']
    · simp only [dictSet, if_neg h, dictGet]
      by_cases h' : pk = k'
      · subst h'
        simp only [if_pos rfl]
        have : ¬ (k = pk) := fun hk => h hk.symm
        simp [this]
      · simp [h', ih]

theorem dictGet_dictMerge_pair (kwargs : Dict) (k1 k2 : String) (v1 v2 : Value)
    (hne : k1 ≠ k2) :
    dictGet (dictMerge kwargs [(k1, v1), (k2, v2)]) k1 = some v1 ∧
    dictGet (dictMerge kwargs [(k1, v1), (k2, v2)]) k2 = some v2 := by
  simp only [dictMerge, List.foldl]
  constructor
  · rw [dictGet_dictSet, if_neg (fun h => hne h.symm), dictGet_dictSet, if_pos rfl]
  · rw [dictGet_dictSet, if_pos rfl]

/-! ## Scratchpad -/

/-- The scratchpad as the spec words it: the in-order concatenation, for each
step, of the action log, a newline, the observation label, the observation,
a newline, and the llm label.  Stated separately from the source fold so the
two can be compared. -/
def scratchpad_spec (cfg : AgentCfg) : List (AgentAction × String) → String
  | [] => ""
  | (a, o) :: rest =>
      a.log ++ "\n" ++ cfg.obsLabel ++ o ++ "\n" ++ cfg.llmLabel
        ++ scratchpad_spec cfg rest

theorem construct_scratchpad_go (cfg : AgentCfg)
    (steps : List (AgentAction × String)) (acc : String) :
    steps.foldl
      (fun thoughts s =>
        thoughts ++ s.1.log ++ "\n" ++ cfg.obsLabel ++ s.2 ++ "\n" ++ cfg.llmLabel)
      acc = acc ++ scratchpad_spec cfg steps := by
  induction steps generalizing acc with
  | nil => simp [scratchpad_spec]
  | cons s rest ih =>
    obtain ⟨a, o⟩ := s
    rw [List.foldl_cons, ih]
    simp [scratchpad_spec, String.append_assoc]

/-- C2: for every sequence of (Action, Observation) steps, the scratchpad
built by `_construct_scratchpad` equals the in-order concatenation, for each
step, of the action log verbatim, a newline, the observation label, the
observation text, a newline, and the llm label, with no reordering, omission
or truncation. -/
theorem construct_scratchpad_concat (cfg : AgentCfg)
    (steps : List (AgentAction × String)) :
    Agent.construct_scratchpad cfg steps = scratchpad_spec cfg steps := by
  unfold Agent.construct_scratchpad
  rw [construct_scratchpad_go]
  simp

/-- C8: the stop-sequence list holds exactly two strings, a newline followed
by the right-stripped observation label and a newline plus tab followed by
the right-stripped observation label, and it depends on nothing but the
observation label. -/
theorem stop_list_spec (cfg : AgentCfg) :
    Agent.stop_list cfg
      = ["\n" ++ pyRstrip cfg.obsLabel, "\n\t" ++ pyRstrip cfg.obsLabel] ∧
    ∀ cfg' : AgentCfg, cfg'.obsLabel = cfg.obsLabel →
      Agent.stop_list cfg' = Agent.stop_list cfg := by
  refine ⟨rfl, ?_⟩
  intro cfg' h
  simp [Agent.stop_list, h]

theorem stop_list_spec_witness :
    Agent.stop_list ⟨"Observation: ", "Thought: "⟩
      = ["\n" ++ pyRstrip "Observation: ", "\n\t" ++ pyRstrip "Observation: "] ∧
    Agent.stop_list ⟨"Observation: ", "Answer: "⟩
      = Agent.stop_list ⟨"Observation: ", "Thought: "⟩ :=
  ⟨(stop_list_spec ⟨"Observation: ", "Thought: "⟩).1,
   (stop_list_spec ⟨"Observation: ", "Thought: "⟩).2 ⟨"Observation: ", "Answer: "⟩ rfl⟩

/-- C7: for every history and every caller-supplied keyword mapping, even one
already containing `"agent_scratchpad"` or `"stop"`, the mapping returned by
`get_full_inputs` binds `"agent_scratchpad"` to the scratchpad computed from
the history and `"stop"` to the derived stop sequences: the injected values
win on key collision. -/
theorem get_full_inputs_injection (cfg : AgentCfg)
    (steps : List (AgentAction × String)) (kwargs : Dict) :
    dictGet (Agent.get_full_inputs cfg steps kwargs) "agent_scratchpad"
      = some (.str (Agent.construct_scratchpad cfg steps)) ∧
    dictGet (Agent.get_full_inputs cfg steps kwargs) "stop"
      = some (.strList (Agent.stop_list cfg)) :=
  dictGet_dictMerge_pair kwargs "agent_scratchpad" "stop" _ _ (by decide)

/-- C6: for every history, model, parser and keyword mapping,
`return_stopped_response "force" …` returns a Finish whose output is exactly
the constant stop message, and the trace of model invocations is empty. -/
theorem return_stopped_force_const (cfg : AgentCfg) (m : Model) (parse : Parse)
    (steps : List (AgentAction × String)) (kwargs : Dict) :
    Agent.return_stopped_response cfg m parse "force" steps kwargs
      = (.ok ⟨[("output",
          .str "Agent stopped due to iteration limit or time limit.")], ""⟩,
         []) := rfl

/-- C9: for every early-stopping method other than `"force"` and
`"generate"`, `return_stopped_response` raises the configuration
`ValueError` and makes no model call. -/
theorem return_stopped_bad_method (cfg : AgentCfg) (m : Model) (parse : Parse)
    (method : String) (steps : List (AgentAction × String)) (kwargs : Dict)
    (h1 : method ≠ "force") (h2 : method ≠ "generate") :
    Agent.return_stopped_response cfg m parse method steps kwargs
      = (.error (.valueError
          ("early_stopping_method should be one of `force` or `generate`, got "
            ++ method)), []) := by
  unfold Agent.return_stopped_response
  rw [if_neg h1, if_neg h2]

/-- A sample ReAct-style flavor used for concrete instantiations. -/
def cfgEx : AgentCfg := ⟨"Observation: ", "Thought: "⟩

/-- A model stub that always fails (for branches that make no call). -/
def mNever : Model := fun _ _ => .error (.modelError "not called")

/-- A parser stub that always fails. -/
def parseNever : Parse := fun t => .error (.parseError t)

theorem return_stopped_bad_method_witness :
    Agent.return_stopped_response cfgEx mNever parseNever "bogus" [] []
      = (.error (.valueError
          ("early_stopping_method should be one of `force` or `generate`, got "
            ++ "bogus")), []) :=
  return_stopped_bad_method cfgEx mNever parseNever "bogus" [] []
    (by decide) (by decide)

/-- Any template accepted by `validate_prompt` declares `"agent_scratchpad"`. -/
theorem validate_prompt_mem (p q : Prompt) (h : validate_prompt p = .ok q) :
    "agent_scratchpad" ∈ q.input_variables := by
  by_cases hmem : "agent_scratchpad" ∈ p.input_variables
  · unfold validate_prompt at h
    rw [if_pos hmem] at h
    cases h
    exact hmem
  · unfold validate_prompt at h
    rw [if_neg hmem] at h
    cases p with
    | promptTemplate vars t =>
        cases h
        simp [Prompt.input_variables]
    | fewShot vars suf =>
        cases h
        simp [Prompt.input_variables]
    | other vars => cases h

/-- C3: for every prompt template whose declared variable list lacks
`"agent_scratchpad"`, validation appends the variable and the trailing
extension `"\n\x7bagent_scratchpad\x7d"` exactly once — to the template body
for a flat template, to the suffix for a few-shot template — any other
template shape raises the configuration `ValueError`, and validation is
idempotent: re-validating any accepted result changes nothing. -/
theorem validate_prompt_patch :
    (∀ vars t, "agent_scratchpad" ∉ vars →
      validate_prompt (.promptTemplate vars t)
        = .ok (.promptTemplate (vars ++ ["agent_scratchpad"])
            (t ++ "\n{agent_scratchpad}"))) ∧
    (∀ vars suf, "agent_scratchpad" ∉ vars →
      validate_prompt (.fewShot vars suf)
        = .ok (.fewShot (vars ++ ["agent_scratchpad"])
            (suf ++ "\n{agent_scratchpad}"))) ∧
    (∀ vars, "agent_scratchpad" ∉ vars →
      validate_prompt (.other vars)
        = .error (.valueError "Got unexpected prompt type")) ∧
    (∀ p q, validate_prompt p = .ok q → validate_prompt q = .ok q) := by
  refine ⟨?_, ?_, ?_, ?_⟩
  · intro vars t h
    unfold validate_prompt
    rw [if_neg (by simpa [Prompt.input_variables] using h)]
  · intro vars suf h
    unfold validate_prompt
    rw [if_neg (by simpa [Prompt.input_variables] using h)]
  · intro vars h
    unfold validate_prompt
    rw [if_neg (by simpa [Prompt.input_variables] using h)]
  · intro p q h
    have hq := validate_prompt_mem p q h
    unfold validate_prompt
    rw [if_pos hq]

theorem validate_prompt_patch_witness :
    validate_prompt (.promptTemplate ["input"] "Answer \x7binput\x7d.")
      = .ok (.promptTemplate ["input", "agent_scratchpad"]
          ("Answer \x7binput\x7d." ++ "\n{agent_scratchpad}")) ∧
    validate_prompt (.fewShot ["input"] "Begin. \x7binput\x7d")
      = .ok (.fewShot ["input", "agent_scratchpad"]
          ("Begin. \x7binput\x7d" ++ "\n{agent_scratchpad}")) ∧
    validate_prompt (.other ["input"])
      = .error (.valueError "Got unexpected prompt type") ∧
    validate_prompt (.promptTemplate ["input", "agent_scratchpad"]
        ("Answer \x7binput\x7d." ++ "\n{agent_scratchpad}"))
      = .ok (.promptTemplate ["input", "agent_scratchpad"]
          ("Answer \x7binput\x7d." ++ "\n{agent_scratchpad}")) :=
  ⟨validate_prompt_patch.1 ["input"] "Answer \x7binput\x7d." (by decide),
   validate_prompt_patch.2.1 ["input"] "Begin. \x7binput\x7d" (by decide),
   validate_prompt_patch.2.2.1 ["input"] (by decide),
   validate_prompt_patch.2.2.2 _ _
     (validate_prompt_patch.1 ["input"] "Answer \x7binput\x7d." (by decide))⟩

/-! ## The plan recovery path -/

/-- Inside `plan` the scratchpad entry of the freshly assembled inputs reads
back as the constructed scratchpad. -/
theorem scratchpadStr_full_inputs (cfg : AgentCfg)
    (steps : List (AgentAction × String)) (kwargs : Dict) :
    Agent.scratchpadStr (Agent.get_full_inputs cfg steps kwargs)
      = Agent.construct_scratchpad cfg steps := by
  have h := dictGet_dictMerge_pair kwargs "agent_scratchpad" "stop"
    (.str (Agent.construct_scratchpad cfg steps))
    (.strList (Agent.stop_list cfg)) (by decide)
  unfold Agent.scratchpadStr Agent.get_full_inputs
  rw [h.1]

/-- The prompt inputs of the retry call inside `plan`: the same dictionary
with the `"agent_scratchpad"` entry overwritten by its old value followed by
the failed completion and the suffix `"\nAction: "`. -/
def retry_inputs (cfg : AgentCfg) (steps : List (AgentAction × String))
    (kwargs : Dict) (full_output : String) : Dict :=
  dictSet (Agent.get_full_inputs cfg steps kwargs) "agent_scratchpad"
    (.str (Agent.construct_scratchpad cfg steps ++ full_output ++ "\nAction: "))

/-- C1 (amended): only a failure of the output parser triggers the single
retry, in which the model is re-invoked with the same inputs except that the
`"agent_scratchpad"` value is extended by the failed completion text plus the
literal suffix `"\nAction: "`, and the new completion, prefixed by
`"Action: "`, is re-parsed.  If instead the model invocation itself raises,
the recovery handler references the never-assigned local `full_output` and
`plan` fails with an `UnboundLocalError`, performing no retry. -/
theorem plan_recovery_amended (cfg : AgentCfg) (m : Model) (parse : Parse)
    (steps : List (AgentAction × String)) (kwargs : Dict) :
    (∀ e, m 0 (Agent.get_full_inputs cfg steps kwargs) = .error e →
      Agent.plan cfg m parse steps kwargs
        = (.error .unboundLocal, [Agent.get_full_inputs cfg steps kwargs])) ∧
    (∀ out0 e out1,
      m 0 (Agent.get_full_inputs cfg steps kwargs) = .ok out0 →
      parse out0 = .error e →
      m 1 (retry_inputs cfg steps kwargs out0) = .ok out1 →
      Agent.plan cfg m parse steps kwargs
        = (parse ("Action: " ++ out1),
           [Agent.get_full_inputs cfg steps kwargs,
            retry_inputs cfg steps kwargs out0])) := by
  constructor
  · intro e hm0
    simp only [Agent.plan, hm0]
  · intro out0 e out1 hm0 hp hm1
    simp only [retry_inputs] at hm1
    simp only [Agent.plan, hm0, hp, scratchpadStr_full_inputs, hm1, retry_inputs]
    cases hq : parse ("Action: " ++ out1) <;> simp [hq]

/-- A sample parsed tool call. -/
def actEx : AgentAction :=
  ⟨"search", .str "cats", "Action: search cats"⟩

/-- A parser stub that accepts only the well-formed tool-call text
`"Action: search cats"` and raises on everything else. -/
def parseEx : Parse := fun t =>
  if t = "Action: search cats" then .ok (.action actEx)
  else .error (.parseError t)

/-- A model stub that raises on its first call and returns well-formed
tool-call text on its second call. -/
def mFailFirst : Model := fun i _ =>
  if i = 0 then .error (.modelError "rate limited") else .ok "search cats"

/-- A model stub that returns unparsable text on its first call and
well-formed tool-call text on its second call. -/
def mBadThenGood : Model := fun i _ =>
  if i = 0 then .ok "gibberish" else .ok "search cats"

/-- C1 counterexample: with a model stub that raises on the first call and
returns well-formed tool-call text on the second, `plan` does not return the
parsed Action — the recovery handler trips over the unassigned local
`full_output` and `plan` raises `UnboundLocalError`, with no second model
call made. -/
theorem plan_model_failure_counterexample :
    mFailFirst 0 (Agent.get_full_inputs cfgEx [] []) = .error (.modelError "rate limited") ∧
    mFailFirst 1 (Agent.get_full_inputs cfgEx [] []) = .ok "search cats" ∧
    parseEx ("Action: " ++ "search cats") = .ok (.action actEx) ∧
    Agent.plan cfgEx mFailFirst parseEx [] []
      = (.error .unboundLocal, [Agent.get_full_inputs cfgEx [] []]) := by
  refine ⟨rfl, rfl, rfl, ?_⟩
  exact (plan_recovery_amended cfgEx mFailFirst parseEx [] []).1
    (.modelError "rate limited") rfl

theorem plan_recovery_amended_witness :
    Agent.plan cfgEx mBadThenGood parseEx [] []
      = (parseEx ("Action: " ++ "search cats"),
         [Agent.get_full_inputs cfgEx [] [],
          retry_inputs cfgEx [] [] "gibberish"]) ∧
    parseEx ("Action: " ++ "search cats") = .ok (.action actEx) :=
  ⟨(plan_recovery_amended cfgEx mBadThenGood parseEx [] []).2
      "gibberish" (.parseError "gibberish") "search cats" rfl rfl rfl,
   rfl⟩

/-- C5: when the first parse fails and the single retry inside `plan` also
fails — its model call raises, or its parse raises — that second exception
propagates to the caller unmodified, and no further model call is made
beyond the two recorded ones. -/
theorem plan_second_failure_propagates (cfg : AgentCfg) (m : Model)
    (parse : Parse) (steps : List (AgentAction × String)) (kwargs : Dict)
    (out0 : String) (e : PyErr)
    (hm0 : m 0 (Agent.get_full_inputs cfg steps kwargs) = .ok out0)
    (hp : parse out0 = .error e) :
    (∀ e2, m 1 (retry_inputs cfg steps kwargs out0) = .error e2 →
      Agent.plan cfg m parse steps kwargs
        = (.error e2,
           [Agent.get_full_inputs cfg steps kwargs,
            retry_inputs cfg steps kwargs out0])) ∧
    (∀ out1 e3, m 1 (retry_inputs cfg steps kwargs out0) = .ok out1 →
      parse ("Action: " ++ out1) = .error e3 →
      Agent.plan cfg m parse steps kwargs
        = (.error e3,
           [Agent.get_full_inputs cfg steps kwargs,
            retry_inputs cfg steps kwargs out0])) := by
  constructor
  · intro e2 hm1
    simp only [retry_inputs] at hm1
    simp only [Agent.plan, hm0, hp, scratchpadStr_full_inputs, hm1, retry_inputs]
  · intro out1 e3 hm1 hp2
    simp only [retry_inputs] at hm1
    simp only [Agent.plan, hm0, hp, scratchpadStr_full_inputs, hm1, hp2,
      retry_inputs]

/-- A model stub that raises on every call. -/
def mFailBoth : Model := fun i _ =>
  if i = 0 then .ok "gibberish" else .error (.modelError "second failure")

theorem plan_second_failure_propagates_witness :
    Agent.plan cfgEx mFailBoth parseEx [] []
      = (.error (.modelError "second failure"),
         [Agent.get_full_inputs cfgEx [] [],
          retry_inputs cfgEx [] [] "gibberish"]) :=
  (plan_second_failure_propagates cfgEx mFailBoth parseEx [] []
      "gibberish" (.parseError "gibberish") rfl rfl).1
    (.modelError "second failure") rfl

/-- C10: when `plan` performs its recovery retry, the second model invocation
receives the same dictionary as the first except for `"agent_scratchpad"`:
every other binding — the `"stop"` list and all caller-supplied keyword
bindings — is unchanged, while `"agent_scratchpad"` is rebound to its old
value extended by the failed completion and `"\nAction: "`. -/
theorem plan_retry_frame (cfg : AgentCfg) (m : Model) (parse : Parse)
    (steps : List (AgentAction × String)) (kwargs : Dict)
    (out0 : String) (e : PyErr)
    (hm0 : m 0 (Agent.get_full_inputs cfg steps kwargs) = .ok out0)
    (hp : parse out0 = .error e) :
    (Agent.plan cfg m parse steps kwargs).2
      = [Agent.get_full_inputs cfg steps kwargs,
         retry_inputs cfg steps kwargs out0] ∧
    dictGet (retry_inputs cfg steps kwargs out0) "agent_scratchpad"
      = some (.str (Agent.construct_scratchpad cfg steps ++ out0
          ++ "\nAction: ")) ∧
    (∀ k, k ≠ "agent_scratchpad" →
      dictGet (retry_inputs cfg steps kwargs out0) k
        = dictGet (Agent.get_full_inputs cfg steps kwargs) k) := by
  refine ⟨?_, ?_, ?_⟩
  · simp only [Agent.plan, hm0, hp, scratchpadStr_full_inputs, retry_inputs]
    cases hm1 : m 1 (dictSet (Agent.get_full_inputs cfg steps kwargs)
        "agent_scratchpad"
        (.str (Agent.construct_scratchpad cfg steps ++ out0 ++ "\nAction: "))) with
    | error e2 => simp [hm1]
    | ok out1 => cases hq : parse ("Action: " ++ out1) <;> simp [hm1, hq]
  · rw [retry_inputs, dictGet_dictSet, if_pos rfl]
  · intro k hk
    rw [retry_inputs, dictGet_dictSet, if_neg (fun h => hk h.symm)]

theorem plan_retry_frame_witness :
    (Agent.plan cfgEx mBadThenGood parseEx [] [("query", Value.str "cats")]).2
      = [Agent.get_full_inputs cfgEx [] [("query", Value.str "cats")],
         retry_inputs cfgEx [] [("query", Value.str "cats")] "gibberish"] ∧
    dictGet (retry_inputs cfgEx [] [("query", Value.str "cats")] "gibberish")
        "query"
      = dictGet (Agent.get_full_inputs cfgEx [] [("query", Value.str "cats")])
        "query" := by
  have h := plan_retry_frame cfgEx mBadThenGood parseEx []
    [("query", Value.str "cats")] "gibberish" (.parseError "gibberish") rfl rfl
  exact ⟨h.1, h.2.2 "query" (by decide)⟩

/-! ## The generate stopping response -/

/-- C4 (amended): `return_stopped_response "generate" …` builds the full
scratchpad as in normal planning followed by the fixed final-answer
instruction, performs exactly one model invocation with no retry, and parses
the result: a parsed Finish is returned as is; a parsed Action makes the raw
completion text the output of the returned Finish; a parse failure (or a
model failure) propagates to the caller instead of being wrapped. -/
theorem return_stopped_generate_amended (cfg : AgentCfg) (m : Model)
    (parse : Parse) (steps : List (AgentAction × String)) (kwargs : Dict) :
    dictGet (Agent.generate_inputs cfg steps kwargs) "agent_scratchpad"
      = some (.str (Agent.construct_scratchpad cfg steps
          ++ "\n\nI now need to return a final answer based on the previous steps:")) ∧
    (∀ e, m 0 (Agent.generate_inputs cfg steps kwargs) = .error e →
      Agent.return_stopped_response cfg m parse "generate" steps kwargs
        = (.error e, [Agent.generate_inputs cfg steps kwargs])) ∧
    (∀ out f, m 0 (Agent.generate_inputs cfg steps kwargs) = .ok out →
      parse out = .ok (.finish f) →
      Agent.return_stopped_response cfg m parse "generate" steps kwargs
        = (.ok f, [Agent.generate_inputs cfg steps kwargs])) ∧
    (∀ out a, m 0 (Agent.generate_inputs cfg steps kwargs) = .ok out →
      parse out = .ok (.action a) →
      Agent.return_stopped_response cfg m parse "generate" steps kwargs
        = (.ok ⟨[("output", .str out)], out⟩,
           [Agent.generate_inputs cfg steps kwargs])) ∧
    (∀ out e, m 0 (Agent.generate_inputs cfg steps kwargs) = .ok out →
      parse out = .error e →
      Agent.return_stopped_response cfg m parse "generate" steps kwargs
        = (.error e, [Agent.generate_inputs cfg steps kwargs])) := by
  refine ⟨?_, ?_, ?_, ?_, ?_⟩
  · exact (dictGet_dictMerge_pair kwargs "agent_scratchpad" "stop" _ _
      (by decide)).1
  · intro e hm
    simp only [Agent.return_stopped_response,
      if_neg (by decide : ¬ ("generate" = "force")), if_pos rfl, hm, if_true]
  · intro out f hm hp
    simp only [Agent.return_stopped_response,
      if_neg (by decide : ¬ ("generate" = "force")), if_pos rfl, hm, hp, if_true]
  · intro out a hm hp
    simp only [Agent.return_stopped_response,
      if_neg (by decide : ¬ ("generate" = "force")), if_pos rfl, hm, hp, if_true]
  · intro out e hm hp
    simp only [Agent.return_stopped_response,
      if_neg (by decide : ¬ ("generate" = "force")), if_pos rfl, hm, hp, if_true]

/-- A model stub that always returns finish-grammar text. -/
def mFinish : Model := fun _ _ => .ok "Final Answer: 42"

/-- A model stub that always returns tool-call text. -/
def mTool : Model := fun _ _ => .ok "Action: search cats"

/-- A sample parsed finish. -/
def finEx : AgentFinish := ⟨[("output", .str "42")], "Final Answer: 42"⟩

/-- A parser stub recognizing the finish grammar `"Final Answer: 42"` and the
tool-call grammar `"Action: search cats"`, raising on everything else. -/
def parseBoth : Parse := fun t =>
  if t = "Final Answer: 42" then .ok (.finish finEx)
  else if t = "Action: search cats" then .ok (.action actEx)
  else .error (.parseError t)

theorem return_stopped_generate_amended_witness :
    Agent.return_stopped_response cfgEx mFinish parseBoth "generate" [] []
      = (.ok finEx, [Agent.generate_inputs cfgEx [] []]) ∧
    Agent.return_stopped_response cfgEx mTool parseBoth "generate" [] []
      = (.ok ⟨[("output", .str "Action: search cats")], "Action: search cats"⟩,
         [Agent.generate_inputs cfgEx [] []]) :=
  ⟨(return_stopped_generate_amended cfgEx mFinish parseBoth [] []).2.2.1
      "Final Answer: 42" finEx rfl rfl,
   (return_stopped_generate_amended cfgEx mTool parseBoth [] []).2.2.2.1
      "Action: search cats" actEx rfl rfl⟩

/-- A model stub that returns text matching neither decision grammar. -/
def mGibberish : Model := fun _ _ => .ok "half-finished gibberish"

/-- C4 counterexample: when the single parse raises — the completion matches
neither grammar — `return_stopped_response "generate" …` propagates the
parse error instead of returning a Finish wrapping the raw completion text
verbatim. -/
theorem return_stopped_generate_counterexample :
    mGibberish 0 (Agent.generate_inputs cfgEx [] []) = .ok "half-finished gibberish" ∧
    parseBoth "half-finished gibberish"
      = .error (.parseError "half-finished gibberish") ∧
    (Agent.return_stopped_response cfgEx mGibberish parseBoth "generate" [] []).1
      = .error (.parseError "half-finished gibberish") ∧
    (Agent.return_stopped_response cfgEx mGibberish parseBoth "generate" [] []).1
      ≠ .ok ⟨[("output", .str "half-finished gibberish")],
             "half-finished gibberish"⟩ := by
  refine ⟨rfl, rfl, ?_, ?_⟩
  · exact congrArg Prod.fst
      ((return_stopped_generate_amended cfgEx mGibberish parseBoth [] []).2.2.2.2
        "half-finished gibberish" (.parseError "half-finished gibberish") rfl rfl)
  · intro h
    exact absurd (congrArg Prod.fst
      ((return_stopped_generate_amended cfgEx mGibberish parseBoth [] []).2.2.2.2
        "half-finished gibberish" (.parseError "half-finished gibberish") rfl rfl)
      ▸ h) (by simp)
